import Mathlib

/-!
Verification development for the `hll-discord-ping` repository
(`ping_setter/management/commands/send_ping.py` and `logging_config.py`).

The Python module is shallowly embedded: each API helper becomes a pure
function from the outcome of its single HTTP call to its return value
together with the list of log messages it emits; the scheduler, the
in-memory configuration dictionary and the configuration file become an
explicit `AppState` record threaded through `reschedule_job`; Python
dictionaries become association lists with last-write-wins insertion.
An HTTP outcome is either a raised exception or a response carrying a
numeric status code and an already-decoded body (`Option` bodies model
`r.json()` raising on malformed payloads). `requests`' `raise_for_status`
raises exactly for status codes `≥ 400`, and `r.ok` is `status < 400`.
-/

namespace PingSetter

/-- Association-list lookup, mirroring Python `dict.get`: the binding that
is found is the one produced by the most recent insertion for that key. -/
def lookupAssoc {κ α : Type} [DecidableEq κ] : List (κ × α) → κ → Option α
  | [], _ => Option.none
  | (k', v') :: rest, k => if k' = k then some v' else lookupAssoc rest k

/-- Association-list insertion, mirroring Python `dict.__setitem__` /
`dict.update` for a single key: replaces the existing binding in place,
otherwise appends at the end (insertion order is irrelevant to `lookupAssoc`). -/
def insertAssoc {κ α : Type} [DecidableEq κ] : List (κ × α) → κ → α → List (κ × α)
  | [], k, v => [(k, v)]
  | (k', v') :: rest, k, v =>
    if k' = k then (k, v) :: rest else (k', v') :: insertAssoc rest k v

/-- The value attached to the LAST occurrence of a key in a raw entry list;
this is the value a Python dict comprehension keeps for a duplicated key. -/
def lastAssoc {κ α : Type} [DecidableEq κ] : List (κ × α) → κ → Option α
  | [], _ => Option.none
  | (k', v') :: rest, k =>
    match lastAssoc rest k with
    | some v => some v
    | Option.none => if k' = k then some v' else Option.none

theorem lookupAssoc_insertAssoc {κ α : Type} [DecidableEq κ]
    (l : List (κ × α)) (k q : κ) (v : α) :
    lookupAssoc (insertAssoc l k v) q =
      if k = q then some v else lookupAssoc l q := by
  induction l with
  | nil => simp [insertAssoc, lookupAssoc]
  | cons hd tl ih =>
    obtain ⟨k', v'⟩ := hd
    by_cases hk : k' = k
    · subst hk
      by_cases hq : k' = q <;> simp [insertAssoc, lookupAssoc, hq]
    · by_cases hq : k' = q
      · subst hq
        have : ¬ k = k' := fun h => hk h.symm
        simp [insertAssoc, lookupAssoc, hk, this]
      · simp [insertAssoc, lookupAssoc, hk, hq, ih]

/-- Folding `insertAssoc` over an entry list realises the Python dict
comprehension: the lookup of the result is the last matching entry,
falling back to the accumulator. -/
theorem lookupAssoc_foldl_insertAssoc {κ α : Type} [DecidableEq κ]
    (entries : List (κ × α)) (acc : List (κ × α)) (q : κ) :
    lookupAssoc (entries.foldl (fun a e => insertAssoc a e.1 e.2) acc) q =
      match lastAssoc entries q with
      | some v => some v
      | Option.none => lookupAssoc acc q := by
  induction entries generalizing acc with
  | nil => simp [lastAssoc]
  | cons hd tl ih =>
    obtain ⟨k, v⟩ := hd
    rw [List.foldl_cons, ih]
    cases h : lastAssoc tl q <;>
      by_cases hk : k = q <;>
        simp [lastAssoc, h, hk, lookupAssoc_insertAssoc]

/-- Digit string to number, most significant digit first. -/
def digitsToNat (cs : List Char) : Nat :=
  cs.foldl (fun a c => 10 * a + (c.toNat - 48)) 0

/-- Python `int(s)` on the strings this program produces: an optional sign
followed by a non-empty run of decimal digits (surrounding whitespace and
underscore separators are not modelled); `Option.none` models the raised
`ValueError`/`TypeError`. -/
def pyInt (s : String) : Option Int :=
  match s.toList with
  | [] => Option.none
  | '-' :: rest =>
    if rest ≠ [] ∧ rest.all Char.isDigit then some (-(digitsToNat rest : Int))
    else Option.none
  | '+' :: rest =>
    if rest ≠ [] ∧ rest.all Char.isDigit then some (digitsToNat rest : Int)
    else Option.none
  | cs =>
    if cs.all Char.isDigit then some (digitsToNat cs : Int) else Option.none

/-- Python `str.isdigit()` for ASCII strings: non-empty and all digits. -/
def pyIsDigit (s : String) : Bool :=
  decide (s.toList ≠ []) && s.toList.all Char.isDigit

/-- Whether the needle occurs at the start of the haystack. -/
def charsStart : List Char → List Char → Bool
  | [], _ => true
  | _ :: _, [] => false
  | a :: n, b :: h => decide (a = b) && charsStart n h

/-- Whether the needle occurs contiguously anywhere in the haystack
(Python `needle in hay`). -/
def charsHas (n : List Char) : List Char → Bool
  | [] => decide (n = [])
  | b :: h => charsStart n (b :: h) || charsHas n h

/-- ASCII lowercasing of one character (Python `str.lower` on the ASCII
strings this program handles). -/
def asciiLower (c : Char) : Char :=
  if 65 ≤ c.toNat ∧ c.toNat ≤ 90 then Char.ofNat (c.toNat + 32) else c

/-- Python `"night" in pretty_name.lower()`. -/
def hasNight (s : String) : Bool :=
  charsHas "night".toList (s.toList.map asciiLower)

/-- Outcome of one HTTP request made through `requests`/`aiohttp`:
either the call raised (connection error, timeout, ...) or a response
arrived with a status code and a decoded body. A body of type `Option β`
uses `Option.none` for a payload on which `r.json()` raises. -/
inductive HttpOutcome (β : Type) where
  | exn : HttpOutcome β
  | resp (status : Nat) (body : β) : HttpOutcome β
deriving DecidableEq

/-- One record of the `get_maps` payload; absent JSON keys are `Option.none`. -/
structure MapData where
  id : Option String
  pretty_name : Option String
  game_mode : Option String
deriving DecidableEq

/-- One record of the `get_bans` payload. -/
structure Ban where
  type : Option String
  player_id : Option String
deriving DecidableEq

/-- One record of the `names` list of a `get_player_profile` payload. -/
structure NameEntry where
  name : Option String
  last_seen : Option String
deriving DecidableEq

/-- The filter of the dict comprehension in `fetch_and_cache_maps`:
keep a map when its `game_mode` equals `"warfare"`, its `id` and
`pretty_name` are truthy (present and non-empty), and its lowercased
`pretty_name` does not contain `"night"`. -/
def warfarePass (m : MapData) : Option (String × String) :=
  match m.game_mode, m.id, m.pretty_name with
  | some g, some i, some p =>
    if g = "warfare" ∧ i ≠ "" ∧ p ≠ "" ∧ hasNight p = false then some (i, p)
    else Option.none
  | _, _, _ => Option.none

/-- `fetch_and_cache_maps`: GET `get_maps`, `raise_for_status`, read
`result` (default `[]` when the key is absent is folded into the body),
build the warfare dictionary, then `cached_maps.clear()` and
`cached_maps.update(...)`. Returns the success flag, the cache after the
call, and the error log lines emitted. -/
def fetch_and_cache_maps_run (o : HttpOutcome (Option (List MapData)))
    (cached_maps : List (String × String)) :
    Bool × List (String × String) × List String :=
  match o with
  | .exn => (false, cached_maps, ["Failed to fetch and cache maps"])
  | .resp status body =>
    if 400 ≤ status then (false, cached_maps, ["Failed to fetch and cache maps"])
    else
      match body with
      | Option.none => (false, cached_maps, ["Failed to fetch and cache maps"])
      | some maps =>
        let warfare_maps :=
          (maps.filterMap warfarePass).foldl (fun acc e => insertAssoc acc e.1 e.2) []
        (true, warfare_maps, ["Successfully cached warfare maps"])

/-- `get_max_ping_autokick`: GET `get_server_settings`, `raise_for_status`,
then `r.json().get("result", \x7b\x7d).get("max_ping_autokick")`. The body
carries that final value (`Option.none` inside means the key was absent). -/
def get_max_ping_autokick_run (o : HttpOutcome (Option (Option Int))) :
    Option Int × List String :=
  match o with
  | .exn => (Option.none, ["Failed to fetch max ping"])
  | .resp status body =>
    if 400 ≤ status then (Option.none, ["Failed to fetch max ping"])
    else
      match body with
      | Option.none => (Option.none, ["Failed to fetch max ping"])
      | some v => (v, [])

/-- `set_max_ping_autokick`: POST and return `r.ok` (status < 400); no
`raise_for_status`, so a response never raises and nothing is logged. -/
def set_max_ping_autokick_run (_ping : Int) (o : HttpOutcome Unit) :
    Bool × List String :=
  match o with
  | .exn => (false, ["Failed to set max ping"])
  | .resp status _ => (decide (status < 400), [])

/-- `get_recent_bans`: GET `get_bans`, `raise_for_status`, keep the bans of
type `"temp"` with a truthy `player_id`, reverse, take `limit`. -/
def get_recent_bans_run (limit : Nat) (o : HttpOutcome (Option (List Ban))) :
    List Ban × List String :=
  match o with
  | .exn => ([], ["Failed to fetch bans"])
  | .resp status body =>
    if 400 ≤ status then ([], ["Failed to fetch bans"])
    else
      match body with
      | Option.none => ([], ["Failed to fetch bans"])
      | some bans =>
        (((bans.filter (fun b =>
            decide (b.type = some "temp") &&
            match b.player_id with
            | some p => decide (p ≠ "")
            | Option.none => false)).reverse).take limit, [])

/-- The `last_seen` sort key of `get_player_name`, defaulting to `""`. -/
def lastSeenKey (n : NameEntry) : String := n.last_seen.getD ""

/-- First maximum of the `names` list under the `last_seen` key: Python's
stable `sort(key=..., reverse=True)` followed by `names[0]`. -/
def pickBest (h : NameEntry) (t : List NameEntry) : NameEntry :=
  t.foldl (fun best x => if lastSeenKey best < lastSeenKey x then x else best) h

/-- `get_player_name`: GET `get_player_profile`, `raise_for_status`, sort
the `names` list by `last_seen` descending and return the first `name`,
with `"Unknown"` for an empty list or an absent `name` key. -/
def get_player_name_run (_player_id : String)
    (o : HttpOutcome (Option (List NameEntry))) : String × List String :=
  match o with
  | .exn => ("Unknown", ["Failed to fetch player profile"])
  | .resp status body =>
    if 400 ≤ status then ("Unknown", ["Failed to fetch player profile"])
    else
      match body with
      | Option.none => ("Unknown", ["Failed to fetch player profile"])
      | some names =>
        match names with
        | [] => ("Unknown", [])
        | h :: t => ((pickBest h t).name.getD "Unknown", [])

/-- `unban_player`: POST `unban` and return `r.ok`; like
`set_max_ping_autokick` it has no `raise_for_status` and logs only when
the call itself raises. -/
def unban_player_run (_player_id : String) (o : HttpOutcome Unit) :
    Bool × List String :=
  match o with
  | .exn => (false, ["Failed to unban player"])
  | .resp status _ => (decide (status < 400), [])

/-- A JSONC configuration value as this program uses them. -/
inductive ConfigVal where
  | str (s : String)
  | int (n : Int)
  | none
deriving DecidableEq

/-- One APScheduler job as registered by `reschedule_job`: the `CronTrigger`
hour and minute plus the `args` list `[job_id, time_str, ping]` (the
`job_id` itself is the key of the scheduler's job table). -/
structure CronJob where
  hour : Int
  minute : Int
  time_str : String
  ping : Int
deriving DecidableEq

/-- The mutable state `reschedule_job` touches: the scheduler's job table,
the in-memory `config` dictionary, and the contents last written to the
configuration file (`Option.none` when never written). -/
structure AppState where
  jobs : List (String × CronJob)
  config : List (String × ConfigVal)
  file : Option (List (String × ConfigVal))
deriving DecidableEq

/-- The `job_config_map` of `reschedule_job`. -/
def jobKeys (job_id : String) : Option (String × String) :=
  if job_id = "set_ping_job_1" then
    some ("SCHEDULED_JOB_1_TIME", "SCHEDULED_JOB_1_PING")
  else if job_id = "set_ping_job_2" then
    some ("SCHEDULED_JOB_2_TIME", "SCHEDULED_JOB_2_PING")
  else Option.none

/-- `reschedule_job`: parse `int(time_str[:2])` and `int(time_str[2:])`,
register the cron trigger under `job_id` with `replace_existing=True`
(`CronTrigger` itself raises `ValueError` outside 0-23 / 0-59), then for a
recognised `job_id` store the pair in `config` and dump the whole
dictionary to the configuration file (`writeOk` models whether that
`open`/`dump` succeeds). The whole body sits in a `try` whose `except`
only logs, so a failure at any step keeps the effects already performed;
the returned `Bool` is true exactly when no exception was raised. -/
def reschedule_job_run (job_id time_str : String) (ping : Int)
    (writeOk : Bool) (st : AppState) : AppState × Bool :=
  match pyInt (time_str.take 2), pyInt (time_str.drop 2) with
  | some hour, some minute =>
    if 0 ≤ hour ∧ hour ≤ 23 ∧ 0 ≤ minute ∧ minute ≤ 59 then
      let st1 : AppState :=
        { st with jobs := insertAssoc st.jobs job_id ⟨hour, minute, time_str, ping⟩ }
      match jobKeys job_id with
      | some (tk, pk) =>
        let cfg := insertAssoc (insertAssoc st1.config tk (.str time_str)) pk (.int ping)
        if writeOk then ({ st1 with config := cfg, file := some cfg }, true)
        else ({ st1 with config := cfg }, false)
      | Option.none => (st1, true)
    else (st, false)
  | _, _ => (st, false)

/-- The calls a slash-command handler or scheduled job makes to the API
helper functions of the module. -/
inductive ApiCall where
  | getMaxPingAutokick
  | setMaxPingAutokick (ping : Int)
  | getRecentBans
  | getPlayerName (player_id : String)
  | unbanPlayer (player_id : String)
  | fetchAndCacheMaps
deriving DecidableEq

/-- `scheduled_ping_job`: call `set_max_ping_autokick(ping)` with the given
HTTP outcome; on success announce in the configured channel when it can be
resolved. Returns the API helper calls made and the Discord messages sent. -/
def scheduled_ping_job_run (job_id time_str : String) (ping : Int)
    (o : HttpOutcome Unit) (channelFound : Bool) : List ApiCall × List String :=
  let res := set_max_ping_autokick_run ping o
  ([ApiCall.setMaxPingAutokick ping],
    if res.1 then
      if channelFound then
        ["[" ++ job_id ++ "] Max ping autokick set (Scheduled " ++
          time_str.take 2 ++ ":" ++ time_str.drop 2 ++ ")"]
      else []
    else [])

/-- The job-registration part of `on_ready`: reschedule
`set_ping_job_1` and `set_ping_job_2` with the time/ping pairs read from
the configuration (the hypotheses of the theorems tie `t1, p1, t2, p2` to
the `SCHEDULED_JOB_n_TIME` / `SCHEDULED_JOB_n_PING` configuration values). -/
def on_ready_jobs (t1 : String) (p1 : Int) (t2 : String) (p2 : Int)
    (st : AppState) : AppState :=
  let s1 := (reschedule_job_run "set_ping_job_1" t1 p1 true st).1
  (reschedule_job_run "set_ping_job_2" t2 p2 true s1).1

/-- Absolute path to `config.jsonc` inside the container (`send_ping.py`). -/
def CONFIG_PATH : String := "/opt/ping_setter_hll/config.jsonc"

/-- The hard-coded default dictionary of `load_config` in `send_ping.py`. -/
def defaultConfig : List (String × ConfigVal) :=
  [("DISCORD_TOKEN", .str ""),
   ("CHANNEL_ID", .none),
   ("CHANNEL_ID_STATS", .none),
   ("API_BASE_URL", .str ""),
   ("API_BEARER_TOKEN", .str ""),
   ("TIMEZONE", .str "Australia/Sydney"),
   ("SCHEDULED_JOB_1_TIME", .str "0009"),
   ("SCHEDULED_JOB_1_PING", .int 500),
   ("SCHEDULED_JOB_2_TIME", .str "1500"),
   ("SCHEDULED_JOB_2_PING", .int 320),
   ("LOG_DIR", .str "/opt/ping_setter_hll/logs")]

/-- The layered candidate paths of `load_config`: the fixed container path,
then `config.jsonc` in the current working directory. -/
def configPaths (cwd : String) : List String :=
  [CONFIG_PATH, cwd ++ "/config.jsonc"]

/-- First path whose file exists, parsed; `fs` maps a path to the parsed
contents of the file there, or `Option.none` for `FileNotFoundError`. -/
def firstParsed (fs : String → Option (List (String × ConfigVal))) :
    List String → Option (List (String × ConfigVal))
  | [] => Option.none
  | p :: ps =>
    match fs p with
    | some c => some c
    | Option.none => firstParsed fs ps

/-- `load_config` of `send_ping.py`: try the layered paths in order and
return the parsed contents of the first file that exists, falling back to
the hard-coded defaults. -/
def load_config (fs : String → Option (List (String × ConfigVal)))
    (cwd : String) : List (String × ConfigVal) :=
  (firstParsed fs (configPaths cwd)).getD defaultConfig

/-- `/curping`: always one `get_max_ping_autokick()` call. -/
def curping_api_calls : List ApiCall := [ApiCall.getMaxPingAutokick]

/-- `/online`: always one `get_max_ping_autokick()` call. -/
def online_api_calls : List ApiCall := [ApiCall.getMaxPingAutokick]

/-- `/setping`: reject a ping outside 1..10000 before any call, otherwise
one `set_max_ping_autokick(ping)` call. -/
def setping_api_calls (ping : Int) : List ApiCall :=
  if ping ≤ 0 ∨ ping > 10000 then [] else [ApiCall.setMaxPingAutokick ping]

/-- `/curscheduledtime`: reads the config dictionary only, no API call. -/
def curscheduledtime_api_calls : List ApiCall := []

/-- API helper calls of one `/setscheduledtime` invocation: every branch of
the handler (format reply, range reply, either `reschedule_job` call, bad
job number) only validates, reschedules and replies — no API helper is
called in any of them. -/
def setscheduledtime_api_calls (_job : Int) (_time : String) (_ping : Int) :
    List ApiCall := []

/-- `/setscheduledtime`: validates `time` (`isdigit`, length 4, hour 0-23,
minute 0-59) and `job` (1 or 2) and then calls `reschedule_job`; the value
returned is the `(job_id, time, ping)` triple passed to `reschedule_job`,
or `Option.none` when no call is made. The handler itself performs no API
helper call and never inspects `ping`. -/
def setscheduledtime_run (job : Int) (time : String) (ping : Int) :
    Option (String × String × Int) :=
  if pyIsDigit time = false ∨ time.length ≠ 4 then Option.none
  else if ¬ (digitsToNat (time.take 2).toList < 24 ∧
             digitsToNat (time.drop 2).toList < 60) then Option.none
  else if job = 1 then some ("set_ping_job_1", time, ping)
  else if job = 2 then some ("set_ping_job_2", time, ping)
  else Option.none

/-- The re-filter inside the `/bans` handler: `b.get("type") == "temp"` and
`b.get("player_id") is not None` (an identity check, not truthiness). -/
def bansTempFilter (b : Ban) : Bool :=
  decide (b.type = some "temp") && decide (b.player_id ≠ Option.none)

/-- API helper calls of one `/bans` invocation: one `get_recent_bans()`
call, then one `get_player_name` call per displayed ban (at most five). -/
def bans_api_calls (o : HttpOutcome (Option (List Ban))) : List ApiCall :=
  let data := (get_recent_bans_run 5 o).1
  let temp_bans := data.filter bansTempFilter
  ApiCall.getRecentBans ::
    if temp_bans = [] then []
    else (temp_bans.take 5).map (fun b => ApiCall.getPlayerName (b.player_id.getD ""))

/-- API helper calls of one `/unban` invocation: one `get_recent_bans()`
call, then — when the index is within the returned list — one
`get_player_name` and one `unban_player` call for the selected ban. -/
def unban_api_calls (o : HttpOutcome (Option (List Ban))) (index : Int) :
    List ApiCall :=
  let data := (get_recent_bans_run 5 o).1
  if data = [] then [ApiCall.getRecentBans]
  else if 1 ≤ index ∧ index ≤ (data.length : Int) then
    match data.get? (index - 1).toNat with
    | some b =>
      [ApiCall.getRecentBans,
       ApiCall.getPlayerName (b.player_id.getD ""),
       ApiCall.unbanPlayer (b.player_id.getD "")]
    | Option.none => [ApiCall.getRecentBans]
  else [ApiCall.getRecentBans]

/-- One record of the `get_vip_ids` payload. -/
structure VipEntry where
  name : String
  vip_expiration : Option String
deriving DecidableEq

/-- The expiration string the code treats as a permanent VIP. -/
def vipSentinel : String := "3000-01-01T00:00:00+00:00"

/-- Left-to-right removal of every occurrence of `pat` (Python
`str.replace(pat, "")`); the fuel is the length of the scanned list. -/
def stripAllGo (pat : List Char) : Nat → List Char → List Char
  | 0, _ => []
  | _ + 1, [] => []
  | fuel + 1, c :: rest =>
    if pat ≠ [] ∧ charsStart pat (c :: rest) = true then
      stripAllGo pat fuel ((c :: rest).drop pat.length)
    else c :: stripAllGo pat fuel rest

/-- The `name.replace(" - CRCON Seed VIP", "")` cleanup of `/showvips`. -/
def stripSeed (s : String) : String :=
  ⟨stripAllGo " - CRCON Seed VIP".toList s.toList.length s.toList⟩

/-- The per-entry filter of `/showvips`: skip the permanent sentinel, parse
the expiration (`parseIso` stands for `datetime.fromisoformat`, returning
an instant as epoch seconds and `Option.none` when it raises — which also
covers the naive-vs-aware comparison `TypeError` the `except` swallows),
keep only strictly future expirations, and record the cleaned name with
the remaining time. -/
def vipPass (parseIso : String → Option Int) (now : Int) (e : VipEntry) :
    Option (String × Int) :=
  match e.vip_expiration with
  | Option.none => Option.none
  | some s =>
    if s = vipSentinel then Option.none
    else
      match parseIso s with
      | Option.none => Option.none
      | some t => if now < t then some (stripSeed e.name, t - now) else Option.none

/-- The `/showvips` listing: filtered entries sorted by remaining time,
longest first (Python's stable `sort(key=lambda x: x[1], reverse=True)`). -/
def show_vips_entries (parseIso : String → Option Int) (now : Int)
    (entries : List VipEntry) : List (String × Int) :=
  (entries.filterMap (vipPass parseIso now)).mergeSort
    (fun a b => decide (b.2 ≤ a.2))

/-- Fuel-indexed chunking; with fuel at least the list length this is the
`for i in range(0, len, per_page)` slicing loop of `/showvips`. -/
def chunksGo {α : Type} : Nat → List α → List (List α)
  | 0, _ => []
  | _ + 1, [] => []
  | fuel + 1, a :: rest => (a :: rest).take 20 :: chunksGo fuel ((a :: rest).drop 20)

/-- Pages of at most 20 entries, in order. -/
def chunksOf20 {α : Type} (l : List α) : List (List α) := chunksGo l.length l

/-- The pages `/showvips` builds from a VIP payload. -/
def show_vips_pages (parseIso : String → Option Int) (now : Int)
    (entries : List VipEntry) : List (List (String × Int)) :=
  chunksOf20 (show_vips_entries parseIso now entries)

/-- Every name bound at module level in `send_ping.py` (imports,
assignments, `def`s and the `class`). -/
def sendPingGlobals : List String :=
  ["json5", "json", "os", "logging", "subprocess", "requests", "aiohttp",
   "calendar", "Path", "Embed", "discord", "asyncio", "commands",
   "app_commands", "BaseCommand", "AsyncIOScheduler", "CronTrigger",
   "timezone", "setup_logging", "text", "create_engine", "CONFIG_PATH",
   "logger", "load_config", "config", "DISCORD_TOKEN", "CHANNEL_ID",
   "CHANNEL_ID_STATS", "API_BASE_URL", "API_BEARER_TOKEN", "DB_URL",
   "HEADERS", "tz_name", "tz", "scheduler", "engine", "intents", "client",
   "tree", "cached_maps", "fetch_and_cache_maps", "get_max_ping_autokick",
   "set_max_ping_autokick", "get_recent_bans", "get_player_name",
   "unban_player", "scheduled_ping_job", "reschedule_job", "datetime",
   "banplayer", "curping", "setping", "curscheduledtime",
   "setscheduledtime", "bans", "unban", "online", "help_command",
   "bantemp", "show_vips", "playerstats", "on_ready", "Command"]

/-- Every name bound at module level in `logging_config.py`. -/
def loggingConfigGlobals : List String :=
  ["os", "json5", "sys", "logging", "TimedRotatingFileHandler", "timezone",
   "datetime", "CONFIG_PATH", "load_config", "config", "LOG_DIR",
   "TIMEZONE", "TZFormatter", "setup_logging"]

/-- Result of one handler invocation: the Discord messages it managed to
send and the exception (by class name) that escaped it, if any. -/
structure HandlerResult where
  sent : List String
  error : Option String
deriving DecidableEq

/-- The start of the `/showvips` handler body: its first statement
evaluates the global name `CHANNEL_ID_VIPstats` in the channel-restriction
check. Resolving a name absent from the module globals (it is no Python
builtin either) raises `NameError` before anything is sent; `onDefined` is
the rest of the handler, reached only if the name resolves. -/
def show_vips_run (onDefined : HandlerResult) : HandlerResult :=
  if "CHANNEL_ID_VIPstats" ∈ sendPingGlobals then onDefined
  else { sent := [], error := some "NameError" }

/-- C1 (counterexample): the claim says every API helper logs the failure
on a non-2xx response, but `set_max_ping_autokick` has no
`raise_for_status` and simply returns `r.ok`: on a 500 response it
returns its sentinel `False` while logging nothing. -/
theorem c1_counterexample :
    set_max_ping_autokick_run 600 (HttpOutcome.resp 500 ()) = (false, []) := rfl

/-- C1 (amended): when the wrapped call raises, every API helper logs and
returns its sentinel (`None`, `False`, `[]`, `"Unknown"`, `False`);
when the response carries an HTTP error status (`≥ 400`, exactly what
`raise_for_status` turns into an exception), the four helpers that call
`raise_for_status` log and return their sentinel, while
`set_max_ping_autokick` and `unban_player` return `False` without
logging. In no case does the failure propagate out of the helper. -/
theorem c1_failures_return_sentinels :
    (get_max_ping_autokick_run .exn =
        (Option.none, ["Failed to fetch max ping"])) ∧
    (∀ ping : Int, set_max_ping_autokick_run ping .exn =
        (false, ["Failed to set max ping"])) ∧
    (∀ limit : Nat, get_recent_bans_run limit .exn =
        ([], ["Failed to fetch bans"])) ∧
    (∀ pid : String, get_player_name_run pid .exn =
        ("Unknown", ["Failed to fetch player profile"])) ∧
    (∀ pid : String, unban_player_run pid .exn =
        (false, ["Failed to unban player"])) ∧
    (∀ cache, (fetch_and_cache_maps_run .exn cache).1 = false ∧
        (fetch_and_cache_maps_run .exn cache).2.2 ≠ []) ∧
    (∀ status : Nat, 400 ≤ status →
      (∀ body, (get_max_ping_autokick_run (.resp status body)).1 = Option.none ∧
          (get_max_ping_autokick_run (.resp status body)).2 ≠ []) ∧
      (∀ limit body, (get_recent_bans_run limit (.resp status body)).1 = [] ∧
          (get_recent_bans_run limit (.resp status body)).2 ≠ []) ∧
      (∀ pid body, (get_player_name_run pid (.resp status body)).1 = "Unknown" ∧
          (get_player_name_run pid (.resp status body)).2 ≠ []) ∧
      (∀ cache body, (fetch_and_cache_maps_run (.resp status body) cache).1 = false ∧
          (fetch_and_cache_maps_run (.resp status body) cache).2.2 ≠ []) ∧
      (∀ ping : Int, set_max_ping_autokick_run ping (.resp status ()) = (false, [])) ∧
      (∀ pid : String, unban_player_run pid (.resp status ()) = (false, []))) := by
  refine ⟨rfl, fun _ => rfl, fun _ => rfl, fun _ => rfl, fun _ => rfl,
    fun cache => ⟨rfl, by simp [fetch_and_cache_maps_run]⟩, ?_⟩
  intro status hs
  have hlt : ¬ status < 400 := by omega
  refine ⟨?_, ?_, ?_, ?_, ?_, ?_⟩
  · intro body
    simp [get_max_ping_autokick_run, hs]
  · intro limit body
    simp [get_recent_bans_run, hs]
  · intro pid body
    simp [get_player_name_run, hs]
  · intro cache body
    simp [fetch_and_cache_maps_run, hs]
  · intro ping
    simp [set_max_ping_autokick_run, hlt]
  · intro pid
    simp [unban_player_run, hlt]

/-- C1 (witness): the amended theorem applied to a concrete 404 response. -/
theorem c1_failures_return_sentinels_witness :
    (get_max_ping_autokick_run (.resp 404 (some (some 120)))).1 = Option.none ∧
    (get_max_ping_autokick_run (.resp 404 (some (some 120)))).2 ≠ [] :=
  (c1_failures_return_sentinels.2.2.2.2.2.2 404 (by omega)).1 (some (some 120))

/-- C9: `fetch_and_cache_maps` is atomic with respect to the cache. On a
raised request, an HTTP error status, or a JSON decoding failure it
returns `False` with `cached_maps` untouched, and in general whenever it
returns `False` the cache after the call is exactly the cache before
(the clear-and-update runs only after the filtered dictionary is built). -/
theorem c9_fetch_and_cache_maps_atomic (cache : List (String × String)) :
    ((fetch_and_cache_maps_run .exn cache).1 = false ∧
      (fetch_and_cache_maps_run .exn cache).2.1 = cache) ∧
    (∀ status body, 400 ≤ status →
      (fetch_and_cache_maps_run (.resp status body) cache).1 = false ∧
      (fetch_and_cache_maps_run (.resp status body) cache).2.1 = cache) ∧
    (∀ status, (fetch_and_cache_maps_run (.resp status Option.none) cache).1 = false ∧
      (fetch_and_cache_maps_run (.resp status Option.none) cache).2.1 = cache) ∧
    (∀ o, (fetch_and_cache_maps_run o cache).1 = false →
      (fetch_and_cache_maps_run o cache).2.1 = cache) := by
  refine ⟨⟨rfl, rfl⟩, ?_, ?_, ?_⟩
  · intro status body hs
    constructor <;> simp [fetch_and_cache_maps_run, hs]
  · intro status
    by_cases hs : 400 ≤ status <;>
      constructor <;> simp [fetch_and_cache_maps_run, hs]
  · intro o h
    match o with
    | .exn => rfl
    | .resp status body =>
      by_cases hs : 400 ≤ status
      · simp [fetch_and_cache_maps_run, hs]
      · match body with
        | Option.none => simp [fetch_and_cache_maps_run, hs]
        | some maps => simp [fetch_and_cache_maps_run, hs] at h

/-- C9 (witness): atomicity at a concrete 500 response and non-empty cache. -/
theorem c9_fetch_and_cache_maps_atomic_witness :
    (fetch_and_cache_maps_run (.resp 500 (some [])) [("m1", "Map One")]).1 = false ∧
    (fetch_and_cache_maps_run (.resp 500 (some [])) [("m1", "Map One")]).2.1 =
      [("m1", "Map One")] :=
  (c9_fetch_and_cache_maps_atomic [("m1", "Map One")]).2.1 500 (some []) (by omega)

/-- A dict comprehension's lookup is the last entry of the source list
with the given key. -/
theorem lookupAssoc_dictOf {κ α : Type} [DecidableEq κ]
    (entries : List (κ × α)) (q : κ) :
    lookupAssoc (entries.foldl (fun a e => insertAssoc a e.1 e.2) []) q =
      lastAssoc entries q := by
  rw [lookupAssoc_foldl_insertAssoc]
  cases h : lastAssoc entries q <;> simp [lookupAssoc]

/-- C2: when `fetch_and_cache_maps` succeeds, the cache after the call is
determined by the fetched list alone — no entry of the previous cache
survives — and a key maps to a pretty name exactly as dictated by the
(last) fetched entry with that id that has `game_mode = "warfare"`,
truthy `id` and `pretty_name`, and no case-insensitive `"night"` in the
pretty name (`warfarePass` is that filter, transcribed from the dict
comprehension). -/
theorem c2_cache_rebuilt_wholesale (status : Nat) (hs : status < 400)
    (maps : List MapData) (cache : List (String × String)) :
    (fetch_and_cache_maps_run (.resp status (some maps)) cache).1 = true ∧
    (∀ k : String,
      lookupAssoc (fetch_and_cache_maps_run (.resp status (some maps)) cache).2.1 k =
        lastAssoc (maps.filterMap warfarePass) k) ∧
    (fetch_and_cache_maps_run (.resp status (some maps)) cache).2.1 =
      (fetch_and_cache_maps_run (.resp status (some maps)) []).2.1 := by
  have hns : ¬ 400 ≤ status := by omega
  refine ⟨by simp [fetch_and_cache_maps_run, hns], ?_, ?_⟩
  · intro k
    simp only [fetch_and_cache_maps_run, if_neg hns]
    exact lookupAssoc_dictOf (maps.filterMap warfarePass) k
  · simp [fetch_and_cache_maps_run, hns]

/-- C2 (witness): a concrete successful fetch with one warfare map, one
night map and one offensive map, against a stale non-empty cache. -/
theorem c2_cache_rebuilt_wholesale_witness :
    (fetch_and_cache_maps_run
        (.resp 200 (some
          [⟨some "carentan_warfare", some "Carentan", some "warfare"⟩,
           ⟨some "foy_night", some "Foy Night", some "warfare"⟩,
           ⟨some "utah_off", some "Utah Beach", some "offensive"⟩]))
        [("stale", "Stale Map")]).1 = true ∧
    lookupAssoc
      (fetch_and_cache_maps_run
        (.resp 200 (some
          [⟨some "carentan_warfare", some "Carentan", some "warfare"⟩,
           ⟨some "foy_night", some "Foy Night", some "warfare"⟩,
           ⟨some "utah_off", some "Utah Beach", some "offensive"⟩]))
        [("stale", "Stale Map")]).2.1 "stale" =
      lastAssoc
        (([⟨some "carentan_warfare", some "Carentan", some "warfare"⟩,
           ⟨some "foy_night", some "Foy Night", some "warfare"⟩,
           ⟨some "utah_off", some "Utah Beach", some "offensive"⟩] :
            List MapData).filterMap warfarePass) "stale" :=
  ⟨(c2_cache_rebuilt_wholesale 200 (by omega) _ _).1,
   (c2_cache_rebuilt_wholesale 200 (by omega) _ _).2.1 "stale"⟩

/-- C3: a successful `reschedule_job` on one of the two known job ids both
re-registers the cron trigger for that id — hour the integer value of the
first two characters of `time_str`, minute that of the rest — and
persists the pair: the job's `TIME` and `PING` keys are set in the config
dictionary and the whole dictionary is written to the configuration file. -/
theorem c3_reschedule_registers_and_persists
    (job_id time_str : String) (ping : Int) (writeOk : Bool) (st st' : AppState)
    (hjob : job_id = "set_ping_job_1" ∨ job_id = "set_ping_job_2")
    (hok : reschedule_job_run job_id time_str ping writeOk st = (st', true)) :
    ∃ hour minute : Int,
      pyInt (time_str.take 2) = some hour ∧
      pyInt (time_str.drop 2) = some minute ∧
      lookupAssoc st'.jobs job_id = some ⟨hour, minute, time_str, ping⟩ ∧
      ∃ tk pk : String, jobKeys job_id = some (tk, pk) ∧
        lookupAssoc st'.config tk = some (.str time_str) ∧
        lookupAssoc st'.config pk = some (.int ping) ∧
        st'.file = some st'.config := by
  match hh : pyInt (time_str.take 2), hm : pyInt (time_str.drop 2) with
  | Option.none, _ =>
    rw [reschedule_job_run, hh] at hok
    simp at hok
  | some hour, Option.none =>
    rw [reschedule_job_run, hh, hm] at hok
    simp at hok
  | some hour, some minute =>
    rw [reschedule_job_run, hh, hm] at hok
    simp only [] at hok
    by_cases hb : 0 ≤ hour ∧ hour ≤ 23 ∧ 0 ≤ minute ∧ minute ≤ 59
    · rw [if_pos hb] at hok
      refine ⟨hour, minute, rfl, rfl, ?_⟩
      obtain ⟨tk, pk, hkeys, htp⟩ :
          ∃ tk pk : String, jobKeys job_id = some (tk, pk) ∧ tk ≠ pk := by
        rcases hjob with h | h <;> subst h
        · exact ⟨_, _, rfl, by decide⟩
        · exact ⟨_, _, rfl, by decide⟩
      rw [hkeys] at hok
      cases writeOk with
      | false => simp at hok
      | true =>
        have hst' : st' =
            { jobs := insertAssoc st.jobs job_id ⟨hour, minute, time_str, ping⟩,
              config := insertAssoc
                (insertAssoc st.config tk (.str time_str)) pk (.int ping),
              file := some (insertAssoc
                (insertAssoc st.config tk (.str time_str)) pk (.int ping)) } := by
          have := congrArg Prod.fst hok
          simp at this
          exact this.symm
        subst hst'
        refine ⟨?_, tk, pk, hkeys, ?_, ?_, rfl⟩
        · rw [lookupAssoc_insertAssoc, if_pos rfl]
        · rw [lookupAssoc_insertAssoc, if_neg htp.symm,
            lookupAssoc_insertAssoc, if_pos rfl]
        · rw [lookupAssoc_insertAssoc, if_pos rfl]
    · rw [if_neg hb] at hok
      simp at hok

/-- The state produced by the concrete reschedule of the C3 witness. -/
def rescheduledState : AppState :=
  ⟨[("set_ping_job_1", ⟨9, 30, "0930", 400⟩)],
   [("SCHEDULED_JOB_1_TIME", .str "0930"), ("SCHEDULED_JOB_1_PING", .int 400)],
   some [("SCHEDULED_JOB_1_TIME", .str "0930"), ("SCHEDULED_JOB_1_PING", .int 400)]⟩

/-- C3 (witness): rescheduling `set_ping_job_1` to 09:30 at 400 ms from an
empty state registers the trigger and persists both keys. -/
theorem c3_reschedule_registers_and_persists_witness :
    ∃ hour minute : Int,
      pyInt ("0930".take 2) = some hour ∧
      pyInt ("0930".drop 2) = some minute ∧
      lookupAssoc rescheduledState.jobs "set_ping_job_1" =
        some ⟨hour, minute, "0930", 400⟩ ∧
      ∃ tk pk : String, jobKeys "set_ping_job_1" = some (tk, pk) ∧
        lookupAssoc rescheduledState.config tk = some (.str "0930") ∧
        lookupAssoc rescheduledState.config pk = some (.int 400) ∧
        rescheduledState.file = some rescheduledState.config :=
  c3_reschedule_registers_and_persists "set_ping_job_1" "0930" 400 true
    (AppState.mk [] [] Option.none) rescheduledState (Or.inl rfl) (by decide)

/-- C4: starting from an empty scheduler, the `on_ready` startup sequence
registers exactly the two jobs `set_ping_job_1` and `set_ping_job_2`,
each from its `SCHEDULED_JOB_n_TIME` / `SCHEDULED_JOB_n_PING`
configuration values, with the cron hour/minute split out of the time
string; and a firing job's only API helper call is
`set_max_ping_autokick` with its configured ping. -/
theorem c4_two_daily_jobs
    (cfg : List (String × ConfigVal)) (t1 t2 : String) (p1 p2 : Int)
    (_hc1 : lookupAssoc cfg "SCHEDULED_JOB_1_TIME" = some (.str t1))
    (_hc2 : lookupAssoc cfg "SCHEDULED_JOB_1_PING" = some (.int p1))
    (_hc3 : lookupAssoc cfg "SCHEDULED_JOB_2_TIME" = some (.str t2))
    (_hc4 : lookupAssoc cfg "SCHEDULED_JOB_2_PING" = some (.int p2))
    (hr1 mn1 hr2 mn2 : Int)
    (ht1 : pyInt (t1.take 2) = some hr1) (hm1 : pyInt (t1.drop 2) = some mn1)
    (ht2 : pyInt (t2.take 2) = some hr2) (hm2 : pyInt (t2.drop 2) = some mn2)
    (hb1 : 0 ≤ hr1 ∧ hr1 ≤ 23 ∧ 0 ≤ mn1 ∧ mn1 ≤ 59)
    (hb2 : 0 ≤ hr2 ∧ hr2 ≤ 23 ∧ 0 ≤ mn2 ∧ mn2 ≤ 59)
    (st : AppState) (hst : st.jobs = []) :
    (on_ready_jobs t1 p1 t2 p2 st).jobs.map Prod.fst =
      ["set_ping_job_1", "set_ping_job_2"] ∧
    lookupAssoc (on_ready_jobs t1 p1 t2 p2 st).jobs "set_ping_job_1" =
      some ⟨hr1, mn1, t1, p1⟩ ∧
    lookupAssoc (on_ready_jobs t1 p1 t2 p2 st).jobs "set_ping_job_2" =
      some ⟨hr2, mn2, t2, p2⟩ ∧
    (∀ (job_id time_str : String) (ping : Int) (o : HttpOutcome Unit)
        (channelFound : Bool),
      (scheduled_ping_job_run job_id time_str ping o channelFound).1 =
        [ApiCall.setMaxPingAutokick ping]) := by
  have hjobs : (on_ready_jobs t1 p1 t2 p2 st).jobs =
      [("set_ping_job_1", ⟨hr1, mn1, t1, p1⟩),
       ("set_ping_job_2", ⟨hr2, mn2, t2, p2⟩)] := by
    unfold on_ready_jobs
    rw [reschedule_job_run, ht1, hm1]
    simp only [if_pos hb1]
    rw [show jobKeys "set_ping_job_1" =
        some ("SCHEDULED_JOB_1_TIME", "SCHEDULED_JOB_1_PING") from rfl]
    simp only [if_pos rfl, hst]
    rw [reschedule_job_run, ht2, hm2]
    simp only [if_pos hb2]
    rw [show jobKeys "set_ping_job_2" =
        some ("SCHEDULED_JOB_2_TIME", "SCHEDULED_JOB_2_PING") from rfl]
    simp only [if_pos rfl]
    rw [show insertAssoc ([] : List (String × CronJob)) "set_ping_job_1"
        ⟨hr1, mn1, t1, p1⟩ = [("set_ping_job_1", ⟨hr1, mn1, t1, p1⟩)] from rfl]
    rfl
  refine ⟨?_, ?_, ?_, ?_⟩
  · rw [hjobs]; rfl
  · rw [hjobs, lookupAssoc, if_pos rfl]
  · rw [hjobs, lookupAssoc, if_neg (by decide), lookupAssoc, if_pos rfl]
  · intro job_id time_str ping o channelFound
    rfl

/-- C4 (witness): the default configuration's two pairs, applied from an
empty state. -/
theorem c4_two_daily_jobs_witness :
    (on_ready_jobs "0009" 500 "1500" 320 (AppState.mk [] [] Option.none)).jobs.map
        Prod.fst = ["set_ping_job_1", "set_ping_job_2"] ∧
    lookupAssoc (on_ready_jobs "0009" 500 "1500" 320
        (AppState.mk [] [] Option.none)).jobs "set_ping_job_1" =
      some ⟨0, 9, "0009", 500⟩ ∧
    lookupAssoc (on_ready_jobs "0009" 500 "1500" 320
        (AppState.mk [] [] Option.none)).jobs "set_ping_job_2" =
      some ⟨15, 0, "1500", 320⟩ ∧
    (∀ (job_id time_str : String) (ping : Int) (o : HttpOutcome Unit)
        (channelFound : Bool),
      (scheduled_ping_job_run job_id time_str ping o channelFound).1 =
        [ApiCall.setMaxPingAutokick ping]) :=
  c4_two_daily_jobs defaultConfig "0009" "1500" 500 320
    (by decide) (by decide) (by decide) (by decide)
    0 9 15 0 (by decide) (by decide) (by decide) (by decide)
    (by decide) (by decide) (AppState.mk [] [] Option.none) rfl

/-- C5: `load_config` tries the fixed container path, then `config.jsonc`
in the current working directory, returns the parsed contents of the
first file that exists, and falls back to the hard-coded default
dictionary, which carries the `DISCORD_TOKEN`, `CHANNEL_ID`,
`API_BASE_URL`, `TIMEZONE`, both scheduled-job time/ping pairs and
`LOG_DIR`. -/
theorem c5_load_config_layered
    (fs : String → Option (List (String × ConfigVal))) (cwd : String) :
    (∀ c, fs CONFIG_PATH = some c → load_config fs cwd = c) ∧
    (fs CONFIG_PATH = Option.none →
      ∀ c, fs (cwd ++ "/config.jsonc") = some c → load_config fs cwd = c) ∧
    (fs CONFIG_PATH = Option.none → fs (cwd ++ "/config.jsonc") = Option.none →
      load_config fs cwd = defaultConfig ∧
      (lookupAssoc defaultConfig "DISCORD_TOKEN").isSome ∧
      (lookupAssoc defaultConfig "CHANNEL_ID").isSome ∧
      (lookupAssoc defaultConfig "API_BASE_URL").isSome ∧
      (lookupAssoc defaultConfig "TIMEZONE").isSome ∧
      (lookupAssoc defaultConfig "SCHEDULED_JOB_1_TIME").isSome ∧
      (lookupAssoc defaultConfig "SCHEDULED_JOB_1_PING").isSome ∧
      (lookupAssoc defaultConfig "SCHEDULED_JOB_2_TIME").isSome ∧
      (lookupAssoc defaultConfig "SCHEDULED_JOB_2_PING").isSome ∧
      (lookupAssoc defaultConfig "LOG_DIR").isSome) := by
  refine ⟨?_, ?_, ?_⟩
  · intro c h
    simp [load_config, firstParsed, configPaths, h]
  · intro h1 c h2
    simp [load_config, firstParsed, configPaths, h1, h2]
  · intro h1 h2
    refine ⟨by simp [load_config, firstParsed, configPaths, h1, h2], ?_⟩
    refine ⟨by decide, by decide, by decide, by decide, by decide,
      by decide, by decide, by decide, by decide⟩

/-- C5 (witness): with no file present anywhere, the defaults are used. -/
theorem c5_load_config_layered_witness :
    load_config (fun _ => Option.none) "/work" = defaultConfig ∧
    (lookupAssoc defaultConfig "DISCORD_TOKEN").isSome ∧
    (lookupAssoc defaultConfig "CHANNEL_ID").isSome ∧
    (lookupAssoc defaultConfig "API_BASE_URL").isSome ∧
    (lookupAssoc defaultConfig "TIMEZONE").isSome ∧
    (lookupAssoc defaultConfig "SCHEDULED_JOB_1_TIME").isSome ∧
    (lookupAssoc defaultConfig "SCHEDULED_JOB_1_PING").isSome ∧
    (lookupAssoc defaultConfig "SCHEDULED_JOB_2_TIME").isSome ∧
    (lookupAssoc defaultConfig "SCHEDULED_JOB_2_PING").isSome ∧
    (lookupAssoc defaultConfig "LOG_DIR").isSome :=
  (c5_load_config_layered (fun _ => Option.none) "/work").2.2 rfl rfl

/-- C6 (counterexample): the claim says every handler invocation performs
at most one API helper call, but a `/bans` invocation whose
`get_recent_bans` call returns two temp bans performs three calls — the
bans fetch plus one `get_player_name` per listed ban. -/
theorem c6_counterexample :
    (bans_api_calls (.resp 200 (some
      [⟨some "temp", some "p1"⟩, ⟨some "temp", some "p2"⟩]))).length = 3 ∧
    ¬ ((bans_api_calls (.resp 200 (some
      [⟨some "temp", some "p1"⟩, ⟨some "temp", some "p2"⟩]))).length ≤ 1) := by
  decide

/-- C6 (amended): `/curping`, `/online` and `/setping` perform at most one
API helper call and `/curscheduledtime` and `/setscheduledtime` none, but
`/bans` performs one `get_recent_bans` call plus one `get_player_name`
call per displayed ban (at most six calls in total) and `/unban` up to
three (`get_recent_bans`, `get_player_name`, `unban_player`). -/
theorem c6_handler_api_call_counts :
    (∀ o, (bans_api_calls o).length ≤ 6) ∧
    (∀ o index, (unban_api_calls o index).length ≤ 3) ∧
    curping_api_calls.length = 1 ∧
    online_api_calls.length = 1 ∧
    (∀ ping, (setping_api_calls ping).length ≤ 1) ∧
    curscheduledtime_api_calls.length = 0 ∧
    (∀ job time ping, (setscheduledtime_api_calls job time ping).length = 0) := by
  refine ⟨?_, ?_, rfl, rfl, ?_, rfl, fun _ _ _ => rfl⟩
  · intro o
    simp only [bans_api_calls, List.length_cons]
    split
    · simp
    · simp only [List.length_map, List.length_take]
      omega
  · intro o index
    simp only [unban_api_calls]
    split
    · simp
    · split
      · split <;> simp
      · simp
  · intro ping
    simp only [setping_api_calls]
    split <;> simp

/-- C8: the name `CHANNEL_ID_VIPstats` used by the `/showvips`
channel-restriction check is bound neither in `send_ping.py` nor in
`logging_config.py` (and is no Python builtin), so every invocation of
the handler raises `NameError` at its first statement, before any reply
is sent. -/
theorem c8_showvips_name_error :
    ("CHANNEL_ID_VIPstats" ∈ sendPingGlobals) = False ∧
    ("CHANNEL_ID_VIPstats" ∈ loggingConfigGlobals) = False ∧
    (∀ onDefined : HandlerResult,
      show_vips_run onDefined = { sent := [], error := some "NameError" }) := by
  refine ⟨by simp [sendPingGlobals], by simp [loggingConfigGlobals], ?_⟩
  intro onDefined
  have h : ("CHANNEL_ID_VIPstats" ∈ sendPingGlobals) = False := by
    simp [sendPingGlobals]
  rw [show_vips_run, if_neg (by simp [h])]

/-- With enough fuel, concatenating the chunks restores the list. -/
theorem flatten_chunksGo {α : Type} (fuel : Nat) (l : List α)
    (h : l.length ≤ fuel) : (chunksGo fuel l).flatten = l := by
  induction fuel generalizing l with
  | zero =>
    cases l with
    | nil => rfl
    | cons a rest => simp at h
  | succ f ih =>
    cases l with
    | nil => rfl
    | cons a rest =>
      rw [chunksGo, List.flatten_cons, ih]
      · exact List.take_append_drop 20 (a :: rest)
      · simp only [List.length_drop]
        simp at h ⊢
        omega

/-- Every chunk has at most 20 elements and none is empty. -/
theorem mem_chunksGo {α : Type} (fuel : Nat) (l c : List α)
    (hc : c ∈ chunksGo fuel l) : c.length ≤ 20 ∧ c ≠ [] := by
  induction fuel generalizing l with
  | zero => simp [chunksGo] at hc
  | succ f ih =>
    cases l with
    | nil => simp [chunksGo] at hc
    | cons a rest =>
      rw [chunksGo] at hc
      rcases List.mem_cons.mp hc with h | h
      · subst h
        constructor
        · simp only [List.length_take]
          omega
        · simp [List.take_eq_nil_iff]
      · exact ih _ h

/-- C7: the `/showvips` listing consists exactly of the VIP entries whose
expiration is not the permanent sentinel, parses as an ISO timestamp and
lies strictly in the future (as a multiset, via `vipPass`); it is sorted
by remaining time in descending order; and it is split into pages of at
most 20 entries each, no page empty, the pages concatenating back to the
full listing. -/
theorem c7_showvips_listing (parseIso : String → Option Int) (now : Int)
    (entries : List VipEntry) :
    ((show_vips_pages parseIso now entries).flatten).Perm
      (entries.filterMap (vipPass parseIso now)) ∧
    ((show_vips_pages parseIso now entries).flatten).Pairwise
      (fun a b => b.2 ≤ a.2) ∧
    (∀ page ∈ show_vips_pages parseIso now entries,
      page.length ≤ 20 ∧ page ≠ []) := by
  have hflat : (show_vips_pages parseIso now entries).flatten =
      show_vips_entries parseIso now entries :=
    flatten_chunksGo _ _ le_rfl
  refine ⟨?_, ?_, ?_⟩
  · rw [hflat]
    exact List.mergeSort_perm (entries.filterMap (vipPass parseIso now)) _
  · rw [hflat]
    have hs : (show_vips_entries parseIso now entries).Pairwise
        (fun a b : String × Int => decide (b.2 ≤ a.2) = true) := by
      apply List.sorted_mergeSort
      · intro a b c h1 h2
        simp only [decide_eq_true_eq] at *
        omega
      · intro a b
        rcases le_total a.2 b.2 with h | h <;> simp [h]
    exact hs.imp (by intro a b h; simpa using h)
  · intro page hp
    exact mem_chunksGo _ _ _ hp

/-- C7 (witness): two temporary VIPs and one permanent VIP under a
concrete parse function; the single page holds both temporary entries,
longest remaining time first. -/
theorem c7_showvips_listing_witness :
    ([(("Bob":String), (600:Int)), (("Alice":String), (100:Int))].length ≤ 20) ∧
    ([(("Bob":String), (600:Int)), (("Alice":String), (100:Int))] ≠ []) := by
  have h := (c7_showvips_listing
    (fun s => if s = "2030-01-01T00:00:00+00:00" then some 100
              else if s = "2031-01-01T00:00:00+00:00" then some 600
              else Option.none)
    0
    [⟨"Alice", some "2030-01-01T00:00:00+00:00"⟩,
     ⟨"Carol", some "3000-01-01T00:00:00+00:00"⟩,
     ⟨"Bob", some "2031-01-01T00:00:00+00:00"⟩]).2.2
  apply h
  have hentries : show_vips_entries
      (fun s => if s = "2030-01-01T00:00:00+00:00" then some 100
                else if s = "2031-01-01T00:00:00+00:00" then some 600
                else Option.none)
      0
      [⟨"Alice", some "2030-01-01T00:00:00+00:00"⟩,
       ⟨"Carol", some "3000-01-01T00:00:00+00:00"⟩,
       ⟨"Bob", some "2031-01-01T00:00:00+00:00"⟩] =
      [(("Bob":String), (600:Int)), (("Alice":String), (100:Int))] := by
    rw [show_vips_entries]
    rw [show ([⟨"Alice", some "2030-01-01T00:00:00+00:00"⟩,
       ⟨"Carol", some "3000-01-01T00:00:00+00:00"⟩,
       ⟨"Bob", some "2031-01-01T00:00:00+00:00"⟩] : List VipEntry).filterMap
        (vipPass (fun s => if s = "2030-01-01T00:00:00+00:00" then some 100
                else if s = "2031-01-01T00:00:00+00:00" then some 600
                else Option.none) 0) =
      [(("Alice":String), (100:Int)), (("Bob":String), (600:Int))] from by decide]
    simp [List.mergeSort]
  rw [show_vips_pages, hentries]
  decide

/-- C10: `/setscheduledtime` invokes `reschedule_job` if and only if the
time argument is a 4-character digit string with hour 0-23 and minute
0-59 and the job argument is 1 or 2; whenever it does, the ping is passed
through unvalidated (the time string too) — in contrast to `/setping`,
whose only call happens exactly for pings in 1..10000. -/
theorem c10_setscheduledtime_validation :
    (∀ (job : Int) (time : String) (ping : Int),
      (setscheduledtime_run job time ping).isSome ↔
        (pyIsDigit time = true ∧ time.length = 4 ∧
         digitsToNat (time.take 2).toList < 24 ∧
         digitsToNat (time.drop 2).toList < 60 ∧
         (job = 1 ∨ job = 2))) ∧
    (∀ (job : Int) (time : String) (ping : Int) (jid t : String) (p : Int),
      setscheduledtime_run job time ping = some (jid, t, p) →
      t = time ∧ p = ping) ∧
    (∀ ping : Int,
      setping_api_calls ping = [ApiCall.setMaxPingAutokick ping] ↔
        (0 < ping ∧ ping ≤ 10000)) := by
  refine ⟨?_, ?_, ?_⟩
  · intro job time ping
    unfold setscheduledtime_run
    by_cases h1 : pyIsDigit time = false ∨ time.length ≠ 4
    · rw [if_pos h1]
      constructor
      · intro h
        simp at h
      · rintro ⟨ha, hb, -⟩
        exfalso
        rcases h1 with h | h
        · rw [ha] at h
          simp at h
        · exact h hb
    · rw [if_neg h1]
      have hd : pyIsDigit time = true := by
        have h' := (not_or.mp h1).1
        revert h'
        cases pyIsDigit time <;> simp
      have hl : time.length = 4 := not_not.mp (not_or.mp h1).2
      by_cases h2 : digitsToNat (time.take 2).toList < 24 ∧
          digitsToNat (time.drop 2).toList < 60
      · rw [if_neg (not_not_intro h2)]
        by_cases hj1 : job = 1
        · rw [if_pos hj1]
          exact iff_of_true rfl ⟨hd, hl, h2.1, h2.2, Or.inl hj1⟩
        · rw [if_neg hj1]
          by_cases hj2 : job = 2
          · rw [if_pos hj2]
            exact iff_of_true rfl ⟨hd, hl, h2.1, h2.2, Or.inr hj2⟩
          · rw [if_neg hj2]
            exact iff_of_false (by simp) (fun hr => hr.2.2.2.2.elim hj1 hj2)
      · rw [if_pos h2]
        constructor
        · intro h
          simp at h
        · rintro ⟨-, -, ha, hb, -⟩
          exact absurd ⟨ha, hb⟩ h2
  · intro job time ping jid t p h
    unfold setscheduledtime_run at h
    by_cases h1 : pyIsDigit time = false ∨ time.length ≠ 4
    · rw [if_pos h1] at h
      cases h
    · rw [if_neg h1] at h
      by_cases h2 : digitsToNat (time.take 2).toList < 24 ∧
          digitsToNat (time.drop 2).toList < 60
      · rw [if_neg (not_not_intro h2)] at h
        by_cases hj1 : job = 1
        · rw [if_pos hj1] at h
          simp only [Option.some.injEq, Prod.mk.injEq] at h
          exact ⟨h.2.1.symm, h.2.2.symm⟩
        · rw [if_neg hj1] at h
          by_cases hj2 : job = 2
          · rw [if_pos hj2] at h
            simp only [Option.some.injEq, Prod.mk.injEq] at h
            exact ⟨h.2.1.symm, h.2.2.symm⟩
          · rw [if_neg hj2] at h
            cases h
      · rw [if_pos h2] at h
        cases h
  · intro ping
    unfold setping_api_calls
    by_cases h : ping ≤ 0 ∨ ping > 10000
    · rw [if_pos h]
      constructor
      · intro hlist
        cases hlist
      · rintro ⟨ha, hb⟩
        exfalso
        rcases h with h | h <;> omega
    · rw [if_neg h]
      obtain ⟨ha, hb⟩ := not_or.mp h
      exact ⟨fun _ => ⟨by omega, by omega⟩, fun _ => rfl⟩

/-- C10 (witness): a valid time with a negative ping is passed through to
`reschedule_job`, while `/setping` does call for an in-range ping. -/
theorem c10_setscheduledtime_validation_witness :
    (setscheduledtime_run 1 "0930" (-5)).isSome ∧
    setping_api_calls 500 = [ApiCall.setMaxPingAutokick 500] :=
  ⟨(c10_setscheduledtime_validation.1 1 "0930" (-5)).mpr (by decide),
   (c10_setscheduledtime_validation.2.2 500).mpr (by decide)⟩

end PingSetter
